import Mathlib

/-!
Shallow embedding of the dynamic secret configuration service
(`dynamicSecretServiceFactory` in
`src/frontend/src/hooks/api/projectUserAdditionalPrivilege/mutation.tsx`):
the `create`, `updateBySlug`, `deleteBySlug` and `list` operations, the
config store, the provider registry, the permission check and the
encryption codec, together with theorems about the specified behaviour.
-/

namespace DynSecret

/-- A JSON object of provider inputs, as an association list from field
names to values (insertion order preserved, as in a JS object). -/
abbrev Obj := List (String × Int)

/-- First-match lookup of a field in an object, as JS property access. -/
def Obj.lookup (o : Obj) (k : String) : Option Int :=
  match o with
  | [] => none
  | (k', v) :: rest => if k' = k then some v else Obj.lookup rest k

/-- JS object spread `\x7b ...stored, ...patch \x7d`: keys of `stored` keep
their position with the patch value when the patch has the key, and keys
appearing only in `patch` are appended. -/
def spreadMerge (stored patch : Obj) : Obj :=
  stored.map (fun kv => (kv.1, (Obj.lookup patch kv.1).getD kv.2)) ++
    patch.filter (fun kv => (Obj.lookup stored kv.1).isNone)

/-- Result of `infisicalSymmetricEncypt`: ciphertext plus the iv / tag /
algorithm / encoding metadata. Modelled from the spec: the crypto library
(`@app/lib/crypto/encryption`) is outside `src/`; the ciphertext field
carries the (serialized) plaintext opaquely so that the spec round-trip
law `decrypt (encrypt x) = x` holds. -/
structure EncPayload where
  ciphertext : Obj
  iv : String
  tag : String
  algorithm : String
  encoding : String
  deriving Repr, DecidableEq

/-- Modelled from the spec: symmetric encryption of the JSON-serialized
provider input (serialization composed with the codec, which the service
only uses through this byte contract). -/
def infisicalSymmetricEncypt (plaintext : Obj) : EncPayload :=
  { ciphertext := plaintext
    iv := "iv"
    tag := "tag"
    algorithm := "aes-256-gcm"
    encoding := "utf8" }

/-- Modelled from the spec: decryption reverses encryption
(`decrypt (encrypt x) = x`); JSON parsing of the decrypted string is
composed in, matching the service's use. -/
def infisicalSymmetricDecrypt (ciphertext : Obj) : Obj := ciphertext

/-- A persisted dynamic secret configuration row. -/
structure DynamicSecretConfig where
  id : String
  folderId : String
  slug : String
  type : String
  version : Nat
  inputCiphertext : Obj
  inputIV : String
  inputTag : String
  algorithm : String
  keyEncoding : String
  maxTTL : Option String
  defaultTTL : String
  isDeleting : Bool
  deriving Repr, DecidableEq

/-- A partial update passed to `dynamicSecretDAL.updateById`: `none`
fields are absent from the update object and leave the column unchanged. -/
structure ConfigPatch where
  inputCiphertext : Option Obj := none
  inputIV : Option String := none
  inputTag : Option String := none
  algorithm : Option String := none
  keyEncoding : Option String := none
  maxTTL : Option (Option String) := none
  defaultTTL : Option String := none
  slug : Option String := none
  isDeleting : Option Bool := none
  deriving Repr, DecidableEq

/-- Apply a partial update to a row, column by column. -/
def applyPatch (c : DynamicSecretConfig) (p : ConfigPatch) : DynamicSecretConfig :=
  { c with
    inputCiphertext := p.inputCiphertext.getD c.inputCiphertext
    inputIV := p.inputIV.getD c.inputIV
    inputTag := p.inputTag.getD c.inputTag
    algorithm := p.algorithm.getD c.algorithm
    keyEncoding := p.keyEncoding.getD c.keyEncoding
    maxTTL := p.maxTTL.getD c.maxTTL
    defaultTTL := p.defaultTTL.getD c.defaultTTL
    slug := p.slug.getD c.slug
    isDeleting := p.isDeleting.getD c.isDeleting }

/-- The error kinds the service can raise. `badRequest` embeds
`BadRequestError` (the kind the source throws for folder-not-found,
config-not-found and slug conflicts alike); `forbidden` embeds the CASL
`ForbiddenError`; `validation` embeds a provider input rejection;
`typeError` embeds the JS runtime error raised by calling a method of
`undefined` (indexing the provider record at an absent key);
`storeNotFound` embeds the store failure of `updateById` on a missing id. -/
inductive DynError where
  | forbidden
  | badRequest (message : String)
  | validation (message : String)
  | typeError (message : String)
  | storeNotFound
  deriving Repr, DecidableEq

/-- A provider from the registry: exactly one capability,
`validateProviderInputs`, rejecting with a reason. -/
structure Provider where
  validateProviderInputs : Obj → Except String Obj

/-- The CASL project permission actions used on the Secrets subject. -/
inductive ProjectPermissionActions where
  | read
  | create
  | edit
  | delete
  deriving Repr, DecidableEq

/-- The scoped Secrets subject `\x7b environment, secretPath \x7d`. -/
structure SecretSub where
  environment : String
  secretPath : String

/-- A resolved permission: which actions on which scoped subject the actor
may perform (`throwUnlessCan` succeeds exactly when this is `true`). -/
def Permission := ProjectPermissionActions → SecretSub → Bool

/-- A folder resolved from a secret path. -/
structure Folder where
  id : String

/-- A lease row: this core only ever needs existence, never contents. -/
structure Lease where
  id : String
  deriving Repr, DecidableEq

/-- The injected collaborators of `dynamicSecretServiceFactory`:
permission service, folder resolver (`folderDAL.findBySecretPath`),
provider registry (a record indexed by provider type, so lookup at an
unknown key yields nothing) and the lease index
(`dynamicSecretLeaseDAL.find` keyed by `dynamicSecretId`). -/
structure Deps where
  getProjectPermission : String → String → String → String → String → Permission
  findBySecretPath : String → String → String → Option Folder
  dynamicSecretProviders : String → Option Provider
  leaseFind : String → List Lease

/-- One observable side effect, in execution order: a store write or a
signal to the pruning queue (`pruneDynamicSecret`). -/
inductive StoreOp where
  | createRow (c : DynamicSecretConfig)
  | updateRow (id : String) (p : ConfigPatch)
  | deleteRow (id : String)
  | prune (id : String)
  deriving Repr, DecidableEq

/-- Mutable world of the service: the config store table, the id counter
of the store, and the trace of side effects performed so far. -/
structure ServiceState where
  store : List DynamicSecretConfig
  nextId : Nat
  trace : List StoreOp
  deriving Repr, DecidableEq

/-- `dynamicSecretDAL.findOne (\x7b slug, folderId \x7d)`: first row
matching both fields. -/
def dalFindOne (store : List DynamicSecretConfig) (slug folderId : String) :
    Option DynamicSecretConfig :=
  store.find? (fun c => c.slug = slug ∧ c.folderId = folderId)

/-- `dynamicSecretDAL.find (\x7b folderId \x7d)`: all rows of the folder. -/
def dalFind (store : List DynamicSecretConfig) (folderId : String) :
    List DynamicSecretConfig :=
  store.filter (fun c => c.folderId = folderId)

/-- The record the service passes to `dynamicSecretDAL.create`
(`id` and `isDeleting` are store-generated: fresh primary key and the
schema default `false`, modelled from the spec since the schema is outside
`src/`). -/
structure NewConfig where
  type : String
  version : Nat
  inputIV : String
  inputTag : String
  inputCiphertext : Obj
  algorithm : String
  keyEncoding : String
  maxTTL : Option String
  defaultTTL : String
  folderId : String
  slug : String

/-- `dynamicSecretDAL.create`: insert a new row with a fresh id and the
default `isDeleting = false`; returns the created row and the new state. -/
def dalCreate (st : ServiceState) (r : NewConfig) :
    DynamicSecretConfig × ServiceState :=
  let row : DynamicSecretConfig :=
    { id := "ds-" ++ toString st.nextId
      folderId := r.folderId
      slug := r.slug
      type := r.type
      version := r.version
      inputCiphertext := r.inputCiphertext
      inputIV := r.inputIV
      inputTag := r.inputTag
      algorithm := r.algorithm
      keyEncoding := r.keyEncoding
      maxTTL := r.maxTTL
      defaultTTL := r.defaultTTL
      isDeleting := false }
  (row, { store := st.store ++ [row]
          nextId := st.nextId + 1
          trace := st.trace ++ [StoreOp.createRow row] })

/-- `dynamicSecretDAL.updateById`: apply a partial update to the row with
the given id, returning the updated row; fails when the id is absent. -/
def dalUpdateById (st : ServiceState) (id : String) (p : ConfigPatch) :
    Except DynError DynamicSecretConfig × ServiceState :=
  match st.store.find? (fun c => c.id = id) with
  | none => (Except.error DynError.storeNotFound, st)
  | some c =>
    let c' := applyPatch c p
    (Except.ok c',
      { store := st.store.map (fun r => if r.id = id then applyPatch r p else r)
        nextId := st.nextId
        trace := st.trace ++ [StoreOp.updateRow id p] })

/-- `dynamicSecretDAL.deleteById`: remove the row with the given id,
returning the deleted row. -/
def dalDeleteById (st : ServiceState) (id : String) :
    Except DynError DynamicSecretConfig × ServiceState :=
  match st.store.find? (fun c => c.id = id) with
  | none => (Except.error DynError.storeNotFound, st)
  | some c =>
    (Except.ok c,
      { store := st.store.filter (fun r => r.id ≠ id)
        nextId := st.nextId
        trace := st.trace ++ [StoreOp.deleteRow id] })

/-- The provider spec `\x7b type, inputs \x7d` of the create DTO. -/
structure ProviderSpec where
  type : String
  inputs : Obj

/-- `TCreateDynamicSecretDTO`. -/
structure TCreateDynamicSecretDTO where
  path : String
  actor : String
  slug : String
  actorId : String
  maxTTL : Option String
  provider : ProviderSpec
  environment : String
  projectId : String
  actorOrgId : String
  defaultTTL : String
  actorAuthMethod : String

/-- `TUpdateDynamicSecretDTO` (`inputs` is the partial patch; absent
fields of the DTO are `none`). -/
structure TUpdateDynamicSecretDTO where
  slug : String
  maxTTL : Option String
  defaultTTL : Option String
  inputs : Option Obj
  environment : String
  projectId : String
  path : String
  actor : String
  actorId : String
  newSlug : Option String
  actorOrgId : String
  actorAuthMethod : String

/-- `TDeleteDyanmicSecretDTO`. -/
structure TDeleteDyanmicSecretDTO where
  actorAuthMethod : String
  actorOrgId : String
  actorId : String
  actor : String
  projectId : String
  slug : String
  path : String
  environment : String

/-- `TListDyanmicSecretsDTO`. -/
structure TListDyanmicSecretsDTO where
  actorAuthMethod : String
  actorOrgId : String
  actorId : String
  actor : String
  projectId : String
  path : String
  environment : String

/-- `create`: authorize Create on the scoped Secrets subject, resolve the
folder, reject a duplicate slug, dispatch the provider, validate, encrypt
and persist a new config. -/
def create (deps : Deps) (dto : TCreateDynamicSecretDTO) (st : ServiceState) :
    Except DynError DynamicSecretConfig × ServiceState :=
  let permission :=
    deps.getProjectPermission dto.actor dto.actorId dto.projectId
      dto.actorAuthMethod dto.actorOrgId
  if permission ProjectPermissionActions.create
      { environment := dto.environment, secretPath := dto.path } then
    match deps.findBySecretPath dto.projectId dto.environment dto.path with
    | none => (Except.error (DynError.badRequest "Folder not found"), st)
    | some folder =>
      match dalFindOne st.store dto.slug folder.id with
      | some _ =>
        (Except.error (DynError.badRequest
          "Provided dynamic secret already exist under the folder"), st)
      | none =>
        match deps.dynamicSecretProviders dto.provider.type with
        | none =>
          (Except.error (DynError.typeError
            "Cannot read properties of undefined (reading validateProviderInputs)"),
            st)
        | some selectedProvider =>
          match selectedProvider.validateProviderInputs dto.provider.inputs with
          | Except.error msg => (Except.error (DynError.validation msg), st)
          | Except.ok inputs =>
            let encryptedInput := infisicalSymmetricEncypt inputs
            let (dynamicSecretCfg, st') := dalCreate st
              { type := dto.provider.type
                version := 1
                inputIV := encryptedInput.iv
                inputTag := encryptedInput.tag
                inputCiphertext := encryptedInput.ciphertext
                algorithm := encryptedInput.algorithm
                keyEncoding := encryptedInput.encoding
                maxTTL := dto.maxTTL
                defaultTTL := dto.defaultTTL
                folderId := folder.id
                slug := dto.slug }
            (Except.ok dynamicSecretCfg, st')
  else (Except.error DynError.forbidden, st)

/-- `updateBySlug`: authorize Edit, resolve, load by slug, check `newSlug`
collisions, decrypt, shallow-merge the patch, re-validate, re-encrypt,
persist. -/
def updateBySlug (deps : Deps) (dto : TUpdateDynamicSecretDTO) (st : ServiceState) :
    Except DynError DynamicSecretConfig × ServiceState :=
  let permission :=
    deps.getProjectPermission dto.actor dto.actorId dto.projectId
      dto.actorAuthMethod dto.actorOrgId
  if permission ProjectPermissionActions.edit
      { environment := dto.environment, secretPath := dto.path } then
    match deps.findBySecretPath dto.projectId dto.environment dto.path with
    | none => (Except.error (DynError.badRequest "Folder not found"), st)
    | some folder =>
      match dalFindOne st.store dto.slug folder.id with
      | none => (Except.error (DynError.badRequest "Dynamic secret not found"), st)
      | some dynamicSecretCfg =>
        let slugCollision :=
          match dto.newSlug with
          | none => false
          | some ns => (dalFindOne st.store ns folder.id).isSome
        if slugCollision then
          (Except.error (DynError.badRequest
            "Provided dynamic secret already exist under the folder"), st)
        else
          match deps.dynamicSecretProviders dynamicSecretCfg.type with
          | none =>
            (Except.error (DynError.typeError
              "Cannot read properties of undefined (reading validateProviderInputs)"),
              st)
          | some selectedProvider =>
            let decryptedStoredInput :=
              infisicalSymmetricDecrypt dynamicSecretCfg.inputCiphertext
            let newInput := spreadMerge decryptedStoredInput (dto.inputs.getD [])
            match selectedProvider.validateProviderInputs newInput with
            | Except.error msg => (Except.error (DynError.validation msg), st)
            | Except.ok updatedInput =>
              let encryptedInput := infisicalSymmetricEncypt updatedInput
              dalUpdateById st dynamicSecretCfg.id
                { inputIV := some encryptedInput.iv
                  inputTag := some encryptedInput.tag
                  inputCiphertext := some encryptedInput.ciphertext
                  algorithm := some encryptedInput.algorithm
                  keyEncoding := some encryptedInput.encoding
                  maxTTL := dto.maxTTL.map some
                  defaultTTL := dto.defaultTTL
                  slug := some (dto.newSlug.getD dto.slug) }
  else (Except.error DynError.forbidden, st)

/-- `deleteBySlug`: authorize Edit, resolve, load by slug; with
outstanding leases flip `isDeleting` then signal the pruning queue and
return the flagged row; with no leases hard-delete and return the row. -/
def deleteBySlug (deps : Deps) (dto : TDeleteDyanmicSecretDTO) (st : ServiceState) :
    Except DynError DynamicSecretConfig × ServiceState :=
  let permission :=
    deps.getProjectPermission dto.actor dto.actorId dto.projectId
      dto.actorAuthMethod dto.actorOrgId
  if permission ProjectPermissionActions.edit
      { environment := dto.environment, secretPath := dto.path } then
    match deps.findBySecretPath dto.projectId dto.environment dto.path with
    | none => (Except.error (DynError.badRequest "Folder not found"), st)
    | some folder =>
      match dalFindOne st.store dto.slug folder.id with
      | none => (Except.error (DynError.badRequest "Dynamic secret not found"), st)
      | some dynamicSecretCfg =>
        let leases := deps.leaseFind dynamicSecretCfg.id
        if leases.length ≠ 0 then
          match dalUpdateById st dynamicSecretCfg.id { isDeleting := some true } with
          | (Except.error e, st') => (Except.error e, st')
          | (Except.ok updatedDynamicSecretCfg, st') =>
            (Except.ok updatedDynamicSecretCfg,
              { st' with trace := st'.trace ++ [StoreOp.prune updatedDynamicSecretCfg.id] })
        else
          dalDeleteById st dynamicSecretCfg.id
  else (Except.error DynError.forbidden, st)

/-- `list`: authorize Edit, resolve the folder, return all configs of the
folder (including `Deleting` ones); read-only. -/
def list (deps : Deps) (dto : TListDyanmicSecretsDTO) (st : ServiceState) :
    Except DynError (List DynamicSecretConfig) × ServiceState :=
  let permission :=
    deps.getProjectPermission dto.actor dto.actorId dto.projectId
      dto.actorAuthMethod dto.actorOrgId
  if permission ProjectPermissionActions.edit
      { environment := dto.environment, secretPath := dto.path } then
    match deps.findBySecretPath dto.projectId dto.environment dto.path with
    | none => (Except.error (DynError.badRequest "Folder not found"), st)
    | some folder => (Except.ok (dalFind st.store folder.id), st)
  else (Except.error DynError.forbidden, st)

/-- The partial update record `updateBySlug` hands to
`dynamicSecretDAL.updateById` (the eight assigned fields of the source's
update object), as a function of the DTO and the validated merged input. -/
def updatePatch (dto : TUpdateDynamicSecretDTO) (updatedInput : Obj) : ConfigPatch :=
  let encryptedInput := infisicalSymmetricEncypt updatedInput
  { inputIV := some encryptedInput.iv
    inputTag := some encryptedInput.tag
    inputCiphertext := some encryptedInput.ciphertext
    algorithm := some encryptedInput.algorithm
    keyEncoding := some encryptedInput.encoding
    maxTTL := dto.maxTTL.map some
    defaultTTL := dto.defaultTTL
    slug := some (dto.newSlug.getD dto.slug) }

theorem Obj.lookup_append (a b : Obj) (k : String) :
    Obj.lookup (a ++ b) k = (Obj.lookup a k).or (Obj.lookup b k) := by
  induction a with
  | nil => simp [Obj.lookup, Option.none_or]
  | cons kv rest ih =>
    by_cases h : kv.1 = k
    · simp [Obj.lookup, h]
    · simp [Obj.lookup, h, ih]

theorem Obj.lookup_map_override (stored patch : Obj) (k : String) :
    Obj.lookup (stored.map (fun kv => (kv.1, (Obj.lookup patch kv.1).getD kv.2))) k
      = (Obj.lookup stored k).map (fun v => (Obj.lookup patch k).getD v) := by
  induction stored with
  | nil => simp [Obj.lookup]
  | cons kv rest ih =>
    by_cases h : kv.1 = k
    · simp [Obj.lookup, h]
    · simp [Obj.lookup, h, ih]

theorem Obj.lookup_filter_of_none (stored patch : Obj) (k : String)
    (h : Obj.lookup stored k = none) :
    Obj.lookup (patch.filter (fun kv => (Obj.lookup stored kv.1).isNone)) k
      = Obj.lookup patch k := by
  induction patch with
  | nil => simp
  | cons kv rest ih =>
    by_cases hk : kv.1 = k
    · have : (Obj.lookup stored kv.1).isNone := by rw [hk, h]; rfl
      simp [List.filter_cons, this, Obj.lookup, hk, h]
    · by_cases hkeep : (Obj.lookup stored kv.1).isNone
      · simp [List.filter_cons, hkeep, Obj.lookup, hk, ih]
      · simp [List.filter_cons, hkeep, Obj.lookup, hk, ih]

theorem Obj.lookup_filter_of_some (stored patch : Obj) (k : String) (v : Int)
    (h : Obj.lookup stored k = some v) :
    Obj.lookup (patch.filter (fun kv => (Obj.lookup stored kv.1).isNone)) k = none := by
  induction patch with
  | nil => simp [Obj.lookup]
  | cons kv rest ih =>
    by_cases hk : kv.1 = k
    · have : ¬ (Obj.lookup stored kv.1).isNone := by rw [hk, h]; simp
      simp [List.filter_cons, this, ih]
    · by_cases hkeep : (Obj.lookup stored kv.1).isNone
      · simp [List.filter_cons, hkeep, Obj.lookup, hk, ih]
      · simp [List.filter_cons, hkeep, ih]

/-- The JS spread merge resolves every key to the patch's value when the
patch has the key and to the stored value otherwise. -/
theorem spreadMerge_lookup (stored patch : Obj) (k : String) :
    Obj.lookup (spreadMerge stored patch) k
      = (Obj.lookup patch k).or (Obj.lookup stored k) := by
  unfold spreadMerge
  rw [Obj.lookup_append, Obj.lookup_map_override]
  cases hs : Obj.lookup stored k with
  | none =>
    rw [Obj.lookup_filter_of_none stored patch k hs]
    cases Obj.lookup patch k <;> simp [Option.or]
  | some v =>
    rw [Obj.lookup_filter_of_some stored patch k v hs]
    cases Obj.lookup patch k <;> simp [Option.or]

theorem dalFindOne_mem {store : List DynamicSecretConfig} {slug folderId : String}
    {cfg : DynamicSecretConfig} (h : dalFindOne store slug folderId = some cfg) :
    cfg ∈ store ∧ cfg.slug = slug ∧ cfg.folderId = folderId := by
  have hm := List.mem_of_find?_eq_some h
  have hp := List.find?_some h
  simp only [decide_eq_true_eq, Bool.decide_and, Bool.and_eq_true] at hp
  exact ⟨hm, hp.1, hp.2⟩

theorem find?_id_eq {store : List DynamicSecretConfig} {cfg : DynamicSecretConfig}
    (hmem : cfg ∈ store) (huniq : (store.map (fun c => c.id)).Nodup) :
    store.find? (fun c => c.id = cfg.id) = some cfg := by
  cases hf : store.find? (fun c => c.id = cfg.id) with
  | none =>
    exfalso
    have := List.find?_eq_none.mp hf cfg hmem
    simp at this
  | some c =>
    have hc := List.find?_some hf
    have hcm := List.mem_of_find?_eq_some hf
    simp only [decide_eq_true_eq] at hc
    rw [List.inj_on_of_nodup_map huniq hcm hmem hc]

theorem dalUpdateById_eq {st : ServiceState} {cfg : DynamicSecretConfig} (p : ConfigPatch)
    (hmem : cfg ∈ st.store) (huniq : (st.store.map (fun c => c.id)).Nodup) :
    dalUpdateById st cfg.id p =
      (Except.ok (applyPatch cfg p),
        { store := st.store.map (fun r => if r.id = cfg.id then applyPatch r p else r)
          nextId := st.nextId
          trace := st.trace ++ [StoreOp.updateRow cfg.id p] }) := by
  unfold dalUpdateById
  rw [find?_id_eq hmem huniq]

theorem dalDeleteById_eq {st : ServiceState} {cfg : DynamicSecretConfig}
    (hmem : cfg ∈ st.store) (huniq : (st.store.map (fun c => c.id)).Nodup) :
    dalDeleteById st cfg.id =
      (Except.ok cfg,
        { store := st.store.filter (fun r => r.id ≠ cfg.id)
          nextId := st.nextId
          trace := st.trace ++ [StoreOp.deleteRow cfg.id] }) := by
  unfold dalDeleteById
  rw [find?_id_eq hmem huniq]

theorem dalUpdateById_fst_ne_badRequest (st : ServiceState) (id : String)
    (p : ConfigPatch) (m : String) :
    (dalUpdateById st id p).1 ≠ Except.error (DynError.badRequest m) := by
  unfold dalUpdateById
  cases st.store.find? (fun c => c.id = id) <;> simp

/-! Concrete fixtures used by witnesses and counterexamples. -/

/-- A permission granting every action on every subject. -/
def allowPerm : Permission := fun _ _ => true

/-- A permission denying every action on every subject. -/
def denyPerm : Permission := fun _ _ => false

/-- A provider accepting any input unchanged. -/
def okProvider : Provider := { validateProviderInputs := fun o => Except.ok o }

/-- Collaborators: everything permitted, a folder at path `/f1`, one
registered provider type, and one outstanding lease for config `ds-0`. -/
def deps0 : Deps :=
  { getProjectPermission := fun _ _ _ _ _ => allowPerm
    findBySecretPath := fun _ _ p => if p = "/f1" then some { id := "folder-1" } else none
    dynamicSecretProviders := fun t => if t = "postgres" then some okProvider else none
    leaseFind := fun i => if i = "ds-0" then [{ id := "lease-1" }] else [] }

/-- As `deps0` but with no outstanding leases at all. -/
def depsNoLease : Deps := { deps0 with leaseFind := fun _ => [] }

/-- As `deps0` but denying every permission. -/
def depsDeny : Deps := { deps0 with getProjectPermission := fun _ _ _ _ _ => denyPerm }

/-- A stored config `db1` in folder `folder-1` with input `{a:1, b:2}`. -/
def cfg0 : DynamicSecretConfig :=
  { id := "ds-0"
    folderId := "folder-1"
    slug := "db1"
    type := "postgres"
    version := 1
    inputCiphertext := [("a", 1), ("b", 2)]
    inputIV := "iv"
    inputTag := "tag"
    algorithm := "aes-256-gcm"
    keyEncoding := "utf8"
    maxTTL := none
    defaultTTL := "1h"
    isDeleting := false }

/-- A store holding exactly `cfg0`. -/
def st0 : ServiceState := { store := [cfg0], nextId := 1, trace := [] }

/-- As `cfg0` but flagged `isDeleting = true` (the `Deleting` state). -/
def cfgDel : DynamicSecretConfig := { cfg0 with id := "ds-9", isDeleting := true }

/-- A store holding only the `Deleting`-state config. -/
def stDel : ServiceState := { store := [cfgDel], nextId := 10, trace := [] }

/-- A create DTO for slug `db1` at path `/f1` with provider `postgres`. -/
def cdto0 : TCreateDynamicSecretDTO :=
  { path := "/f1"
    actor := "user"
    slug := "db1"
    actorId := "u1"
    maxTTL := none
    provider := { type := "postgres", inputs := [("host", 7), ("port", 5432)] }
    environment := "dev"
    projectId := "proj-1"
    actorOrgId := "org-1"
    defaultTTL := "1h"
    actorAuthMethod := "jwt" }

/-- A create DTO whose path resolves to no folder. -/
def cdtoNoFolder : TCreateDynamicSecretDTO := { cdto0 with path := "/missing" }

/-- A create DTO naming a provider type absent from the registry. -/
def cdtoUnknown : TCreateDynamicSecretDTO :=
  { cdto0 with slug := "db2", provider := { type := "unknown-provider", inputs := [] } }

/-- An update DTO for `db1` with patch `{b:3}` and no rename. -/
def udto0 : TUpdateDynamicSecretDTO :=
  { slug := "db1"
    maxTTL := none
    defaultTTL := none
    inputs := some [("b", 3)]
    environment := "dev"
    projectId := "proj-1"
    path := "/f1"
    actor := "user"
    actorId := "u1"
    newSlug := none
    actorOrgId := "org-1"
    actorAuthMethod := "jwt" }

/-- An update DTO renaming `db1` to its own current slug `db1`. -/
def udtoSameSlug : TUpdateDynamicSecretDTO := { udto0 with newSlug := some "db1" }

/-- A delete DTO for `db1` at path `/f1`. -/
def ddto0 : TDeleteDyanmicSecretDTO :=
  { actorAuthMethod := "jwt"
    actorOrgId := "org-1"
    actorId := "u1"
    actor := "user"
    projectId := "proj-1"
    slug := "db1"
    path := "/f1"
    environment := "dev" }

/-- A list DTO for path `/f1`. -/
def ldto0 : TListDyanmicSecretsDTO :=
  { actorAuthMethod := "jwt"
    actorOrgId := "org-1"
    actorId := "u1"
    actor := "user"
    projectId := "proj-1"
    path := "/f1"
    environment := "dev" }

/-! Claim theorems. -/

/-- C9: in each of the four operations, an actor lacking the required
capability gets `ForbiddenError` and the operation performs nothing else:
the returned state is the input state (no store access, no trace entry),
whatever the folder resolver, registry, lease index or store contain. -/
theorem authz_failure_no_side_effects :
    (∀ (deps : Deps) (dto : TCreateDynamicSecretDTO) (st : ServiceState),
      deps.getProjectPermission dto.actor dto.actorId dto.projectId
        dto.actorAuthMethod dto.actorOrgId ProjectPermissionActions.create
        { environment := dto.environment, secretPath := dto.path } = false →
      create deps dto st = (Except.error DynError.forbidden, st))
    ∧ (∀ (deps : Deps) (dto : TUpdateDynamicSecretDTO) (st : ServiceState),
      deps.getProjectPermission dto.actor dto.actorId dto.projectId
        dto.actorAuthMethod dto.actorOrgId ProjectPermissionActions.edit
        { environment := dto.environment, secretPath := dto.path } = false →
      updateBySlug deps dto st = (Except.error DynError.forbidden, st))
    ∧ (∀ (deps : Deps) (dto : TDeleteDyanmicSecretDTO) (st : ServiceState),
      deps.getProjectPermission dto.actor dto.actorId dto.projectId
        dto.actorAuthMethod dto.actorOrgId ProjectPermissionActions.edit
        { environment := dto.environment, secretPath := dto.path } = false →
      deleteBySlug deps dto st = (Except.error DynError.forbidden, st))
    ∧ (∀ (deps : Deps) (dto : TListDyanmicSecretsDTO) (st : ServiceState),
      deps.getProjectPermission dto.actor dto.actorId dto.projectId
        dto.actorAuthMethod dto.actorOrgId ProjectPermissionActions.edit
        { environment := dto.environment, secretPath := dto.path } = false →
      list deps dto st = (Except.error DynError.forbidden, st)) := by
  refine ⟨?_, ?_, ?_, ?_⟩ <;> intro deps dto st h
  · simp [create, h]
  · simp [updateBySlug, h]
  · simp [deleteBySlug, h]
  · simp [list, h]

/-- C9 witness: the denying fixture is rejected with `ForbiddenError` by
`create` and the state is untouched. -/
theorem authz_failure_no_side_effects_witness :
    create depsDeny cdto0 st0 = (Except.error DynError.forbidden, st0) :=
  authz_failure_no_side_effects.1 depsDeny cdto0 st0 rfl

/-- C7 counterexample: the not-found failures do not carry a distinct
`NotFoundError` kind — `create` on an unresolved folder fails with the
`badRequest` kind (`BadRequestError` in the source), the same error kind
the slug-conflict failure carries, so the claimed distinct error taxonomy
does not hold at these inputs. -/
theorem notFound_kind_shared_with_conflict :
    (create deps0 cdtoNoFolder st0).1
        = Except.error (DynError.badRequest "Folder not found")
    ∧ (updateBySlug deps0 udtoSameSlug st0).1
        = Except.error
            (DynError.badRequest "Provided dynamic secret already exist under the folder")
    ∧ (deleteBySlug deps0 { ddto0 with slug := "nope" } st0).1
        = Except.error (DynError.badRequest "Dynamic secret not found") :=
  ⟨rfl, rfl, rfl⟩

/-- C7 (amended): in each of the four operations an unresolved folder
fails with message `Folder not found`, and in `updateBySlug` and
`deleteBySlug` an absent config fails with message `Dynamic secret not
found` — but the kind of all of these is `badRequest` (`BadRequestError`),
the same kind the conflict failures carry, not a distinct `NotFoundError`;
the state is unchanged in every case. -/
theorem notFound_messages :
    (∀ (deps : Deps) (dto : TCreateDynamicSecretDTO) (st : ServiceState),
      deps.getProjectPermission dto.actor dto.actorId dto.projectId
        dto.actorAuthMethod dto.actorOrgId ProjectPermissionActions.create
        { environment := dto.environment, secretPath := dto.path } = true →
      deps.findBySecretPath dto.projectId dto.environment dto.path = none →
      create deps dto st = (Except.error (DynError.badRequest "Folder not found"), st))
    ∧ (∀ (deps : Deps) (dto : TUpdateDynamicSecretDTO) (st : ServiceState),
      deps.getProjectPermission dto.actor dto.actorId dto.projectId
        dto.actorAuthMethod dto.actorOrgId ProjectPermissionActions.edit
        { environment := dto.environment, secretPath := dto.path } = true →
      deps.findBySecretPath dto.projectId dto.environment dto.path = none →
      updateBySlug deps dto st = (Except.error (DynError.badRequest "Folder not found"), st))
    ∧ (∀ (deps : Deps) (dto : TDeleteDyanmicSecretDTO) (st : ServiceState),
      deps.getProjectPermission dto.actor dto.actorId dto.projectId
        dto.actorAuthMethod dto.actorOrgId ProjectPermissionActions.edit
        { environment := dto.environment, secretPath := dto.path } = true →
      deps.findBySecretPath dto.projectId dto.environment dto.path = none →
      deleteBySlug deps dto st = (Except.error (DynError.badRequest "Folder not found"), st))
    ∧ (∀ (deps : Deps) (dto : TListDyanmicSecretsDTO) (st : ServiceState),
      deps.getProjectPermission dto.actor dto.actorId dto.projectId
        dto.actorAuthMethod dto.actorOrgId ProjectPermissionActions.edit
        { environment := dto.environment, secretPath := dto.path } = true →
      deps.findBySecretPath dto.projectId dto.environment dto.path = none →
      list deps dto st = (Except.error (DynError.badRequest "Folder not found"), st))
    ∧ (∀ (deps : Deps) (dto : TUpdateDynamicSecretDTO) (st : ServiceState) (folder : Folder),
      deps.getProjectPermission dto.actor dto.actorId dto.projectId
        dto.actorAuthMethod dto.actorOrgId ProjectPermissionActions.edit
        { environment := dto.environment, secretPath := dto.path } = true →
      deps.findBySecretPath dto.projectId dto.environment dto.path = some folder →
      dalFindOne st.store dto.slug folder.id = none →
      updateBySlug deps dto st
        = (Except.error (DynError.badRequest "Dynamic secret not found"), st))
    ∧ (∀ (deps : Deps) (dto : TDeleteDyanmicSecretDTO) (st : ServiceState) (folder : Folder),
      deps.getProjectPermission dto.actor dto.actorId dto.projectId
        dto.actorAuthMethod dto.actorOrgId ProjectPermissionActions.edit
        { environment := dto.environment, secretPath := dto.path } = true →
      deps.findBySecretPath dto.projectId dto.environment dto.path = some folder →
      dalFindOne st.store dto.slug folder.id = none →
      deleteBySlug deps dto st
        = (Except.error (DynError.badRequest "Dynamic secret not found"), st)) := by
  refine ⟨?_, ?_, ?_, ?_, ?_, ?_⟩
  · intro deps dto st hperm hfold
    simp [create, hperm, hfold]
  · intro deps dto st hperm hfold
    simp [updateBySlug, hperm, hfold]
  · intro deps dto st hperm hfold
    simp [deleteBySlug, hperm, hfold]
  · intro deps dto st hperm hfold
    simp [list, hperm, hfold]
  · intro deps dto st folder hperm hfold hcfg
    simp [updateBySlug, hperm, hfold, hcfg]
  · intro deps dto st folder hperm hfold hcfg
    simp [deleteBySlug, hperm, hfold, hcfg]

/-- C7 witness: `create` at the fixture whose path resolves to no folder
yields the `Folder not found` failure with the state unchanged. -/
theorem notFound_messages_witness :
    create deps0 cdtoNoFolder st0
      = (Except.error (DynError.badRequest "Folder not found"), st0) :=
  notFound_messages.1 deps0 cdtoNoFolder st0 rfl rfl

/-- C4 counterexample: renaming a config to its own current slug fails
with the conflict error — the `newSlug` check matches any existing config
with that slug in the folder, including the config being updated itself,
so `newSlug` equal to the current slug does conflict. -/
theorem updateBySlug_same_slug_conflicts :
    updateBySlug deps0 udtoSameSlug st0
      = (Except.error
          (DynError.badRequest "Provided dynamic secret already exist under the folder"),
        st0) := rfl

/-- C4 (amended): once Edit is authorized, the folder resolves and the
config loads, `updateBySlug` with a provided `newSlug` fails with the
conflict error exactly when any existing config in the folder already uses
`newSlug` — the check does not exclude the config being updated and does
not exclude configs flagged `isDeleting`, so renaming to the current slug
conflicts; the error kind is `badRequest` (`BadRequestError`). -/
theorem updateBySlug_newSlug_conflict (deps : Deps) (dto : TUpdateDynamicSecretDTO)
    (st : ServiceState) (folder : Folder) (cfg : DynamicSecretConfig) (ns : String)
    (hperm : deps.getProjectPermission dto.actor dto.actorId dto.projectId
      dto.actorAuthMethod dto.actorOrgId ProjectPermissionActions.edit
      { environment := dto.environment, secretPath := dto.path } = true)
    (hfold : deps.findBySecretPath dto.projectId dto.environment dto.path = some folder)
    (hcfg : dalFindOne st.store dto.slug folder.id = some cfg)
    (hns : dto.newSlug = some ns) :
    (updateBySlug deps dto st).1
      = Except.error
          (DynError.badRequest "Provided dynamic secret already exist under the folder")
    ↔ (dalFindOne st.store ns folder.id).isSome := by
  cases hcol : dalFindOne st.store ns folder.id with
  | some c =>
    simp only [Option.isSome_some, iff_true]
    simp [updateBySlug, hperm, hfold, hcfg, hns, hcol]
  | none =>
    simp only [Option.isSome_none, iff_false]
    cases hprov : deps.dynamicSecretProviders cfg.type with
    | none => simp [updateBySlug, hperm, hfold, hcfg, hns, hcol, hprov]
    | some prov =>
      cases hval : prov.validateProviderInputs
          (spreadMerge (infisicalSymmetricDecrypt cfg.inputCiphertext)
            (dto.inputs.getD [])) with
      | error m => simp [updateBySlug, hperm, hfold, hcfg, hns, hcol, hprov, hval]
      | ok upd =>
        simp only [updateBySlug, hperm, hfold, hcfg, hns, hcol, hprov, hval]
        simp only [Option.isSome_none, Bool.false_eq_true, if_false, if_true]
        exact iff_false_intro (dalUpdateById_fst_ne_badRequest st cfg.id _ _)

/-- C4 witness: with a free slug `db2` as `newSlug`, the conflict
equivalence instantiates to no conflict being raised. -/
theorem updateBySlug_newSlug_conflict_witness :
    ((updateBySlug deps0 { udto0 with newSlug := some "db2" } st0).1
      = Except.error
          (DynError.badRequest "Provided dynamic secret already exist under the folder")
    ↔ (dalFindOne st0.store "db2" "folder-1").isSome) :=
  updateBySlug_newSlug_conflict deps0 { udto0 with newSlug := some "db2" } st0
    { id := "folder-1" } cfg0 "db2" rfl rfl rfl rfl

/-- C5 counterexample: a config flagged `isDeleting = true` still blocks
creation of a config with the same slug in the folder — the duplicate
pre-check does not filter on `isDeleting`. -/
theorem create_blocked_by_deleting_config :
    create deps0 cdto0 stDel
      = (Except.error
          (DynError.badRequest "Provided dynamic secret already exist under the folder"),
        stDel) := rfl

/-- C5 (amended): once Create is authorized and the folder resolves,
`create` fails with the conflict error exactly when any config with the
same slug exists in the folder — regardless of its `isDeleting` flag; the
error kind is `badRequest` (`BadRequestError`). -/
theorem create_slug_conflict (deps : Deps) (dto : TCreateDynamicSecretDTO)
    (st : ServiceState) (folder : Folder)
    (hperm : deps.getProjectPermission dto.actor dto.actorId dto.projectId
      dto.actorAuthMethod dto.actorOrgId ProjectPermissionActions.create
      { environment := dto.environment, secretPath := dto.path } = true)
    (hfold : deps.findBySecretPath dto.projectId dto.environment dto.path = some folder) :
    (create deps dto st).1
      = Except.error
          (DynError.badRequest "Provided dynamic secret already exist under the folder")
    ↔ (dalFindOne st.store dto.slug folder.id).isSome := by
  cases hdup : dalFindOne st.store dto.slug folder.id with
  | some c =>
    simp only [Option.isSome_some, iff_true]
    simp [create, hperm, hfold, hdup]
  | none =>
    simp only [Option.isSome_none, iff_false]
    cases hprov : deps.dynamicSecretProviders dto.provider.type with
    | none => simp [create, hperm, hfold, hdup, hprov]
    | some prov =>
      cases hval : prov.validateProviderInputs dto.provider.inputs with
      | error m => simp [create, hperm, hfold, hdup, hprov, hval]
      | ok inputs => simp [create, hperm, hfold, hdup, hprov, hval, dalCreate]

/-- C5 witness: with the store holding only the flagged config, the
equivalence instantiates to the conflict being raised. -/
theorem create_slug_conflict_witness :
    ((create deps0 cdto0 stDel).1
      = Except.error
          (DynError.badRequest "Provided dynamic secret already exist under the folder")
    ↔ (dalFindOne stDel.store "db1" "folder-1").isSome) :=
  create_slug_conflict deps0 cdto0 stDel { id := "folder-1" } rfl rfl

/-- C6 counterexample: `create` with a provider type absent from the
registry fails with the runtime type error of calling
`validateProviderInputs` on an `undefined` registry entry — an error kind
distinct from a validation error — while persisting nothing. -/
theorem create_unknown_provider_type_error :
    create deps0 cdtoUnknown st0
      = (Except.error (DynError.typeError
          "Cannot read properties of undefined (reading validateProviderInputs)"), st0)
    ∧ DynError.typeError
          "Cannot read properties of undefined (reading validateProviderInputs)"
        ≠ DynError.validation
          "Cannot read properties of undefined (reading validateProviderInputs)" :=
  ⟨rfl, by decide⟩

/-- C6 (amended): once Create is authorized, the folder resolves and the
slug is free, `create` with a provider type that has no registry entry
fails with the runtime type error of reading `validateProviderInputs` from
`undefined` — not a `ValidationError` or dedicated unknown-provider
error — and persists nothing: the state is returned unchanged. -/
theorem create_unknown_provider (deps : Deps) (dto : TCreateDynamicSecretDTO)
    (st : ServiceState) (folder : Folder)
    (hperm : deps.getProjectPermission dto.actor dto.actorId dto.projectId
      dto.actorAuthMethod dto.actorOrgId ProjectPermissionActions.create
      { environment := dto.environment, secretPath := dto.path } = true)
    (hfold : deps.findBySecretPath dto.projectId dto.environment dto.path = some folder)
    (hdup : dalFindOne st.store dto.slug folder.id = none)
    (hprov : deps.dynamicSecretProviders dto.provider.type = none) :
    create deps dto st
      = (Except.error (DynError.typeError
          "Cannot read properties of undefined (reading validateProviderInputs)"), st) := by
  simp [create, hperm, hfold, hdup, hprov]

/-- C6 witness: the unknown-provider fixture is rejected with the type
error and the state is untouched. -/
theorem create_unknown_provider_witness :
    create deps0 cdtoUnknown st0
      = (Except.error (DynError.typeError
          "Cannot read properties of undefined (reading validateProviderInputs)"), st0) :=
  create_unknown_provider deps0 cdtoUnknown st0 { id := "folder-1" } rfl rfl rfl rfl

/-- The row a successful `create` persists: fresh store id, the DTO's
binding fields, `version = 1`, the default `isDeleting = false`, and the
five encrypted-payload fields taken from one `infisicalSymmetricEncypt`
result over the validated input. -/
def createdRow (dto : TCreateDynamicSecretDTO) (st : ServiceState) (folder : Folder)
    (validated : Obj) : DynamicSecretConfig :=
  { id := "ds-" ++ toString st.nextId
    folderId := folder.id
    slug := dto.slug
    type := dto.provider.type
    version := 1
    inputCiphertext := (infisicalSymmetricEncypt validated).ciphertext
    inputIV := (infisicalSymmetricEncypt validated).iv
    inputTag := (infisicalSymmetricEncypt validated).tag
    algorithm := (infisicalSymmetricEncypt validated).algorithm
    keyEncoding := (infisicalSymmetricEncypt validated).encoding
    maxTTL := dto.maxTTL
    defaultTTL := dto.defaultTTL
    isDeleting := false }

/-- C8: a successful `create` persists exactly one new row, written in a
single store create call, with `version = 1`, `isDeleting = false`, and
all five encrypted-payload fields taken together from the one encryption
of the validated input; the value returned to the caller is that persisted
row itself, which carries only the encrypted payload and no decrypted
provider input. -/
theorem create_success (deps : Deps) (dto : TCreateDynamicSecretDTO)
    (st : ServiceState) (folder : Folder) (prov : Provider) (validated : Obj)
    (hperm : deps.getProjectPermission dto.actor dto.actorId dto.projectId
      dto.actorAuthMethod dto.actorOrgId ProjectPermissionActions.create
      { environment := dto.environment, secretPath := dto.path } = true)
    (hfold : deps.findBySecretPath dto.projectId dto.environment dto.path = some folder)
    (hdup : dalFindOne st.store dto.slug folder.id = none)
    (hprov : deps.dynamicSecretProviders dto.provider.type = some prov)
    (hval : prov.validateProviderInputs dto.provider.inputs = Except.ok validated) :
    create deps dto st
      = (Except.ok (createdRow dto st folder validated),
        { store := st.store ++ [createdRow dto st folder validated]
          nextId := st.nextId + 1
          trace := st.trace ++ [StoreOp.createRow (createdRow dto st folder validated)] })
    ∧ (createdRow dto st folder validated).version = 1
    ∧ (createdRow dto st folder validated).isDeleting = false
    ∧ (createdRow dto st folder validated).inputCiphertext
        = (infisicalSymmetricEncypt validated).ciphertext
    ∧ (createdRow dto st folder validated).inputIV = (infisicalSymmetricEncypt validated).iv
    ∧ (createdRow dto st folder validated).inputTag = (infisicalSymmetricEncypt validated).tag
    ∧ (createdRow dto st folder validated).algorithm
        = (infisicalSymmetricEncypt validated).algorithm
    ∧ (createdRow dto st folder validated).keyEncoding
        = (infisicalSymmetricEncypt validated).encoding
    ∧ (createdRow dto st folder validated).folderId = folder.id
    ∧ (createdRow dto st folder validated).slug = dto.slug
    ∧ (createdRow dto st folder validated).type = dto.provider.type := by
  refine ⟨?_, rfl, rfl, rfl, rfl, rfl, rfl, rfl, rfl, rfl, rfl⟩
  simp [create, hperm, hfold, hdup, hprov, hval, dalCreate, createdRow]

/-- C8 witness: creating `db1` in an empty store persists and returns the
concrete row with `version = 1` and `isDeleting = false`. -/
theorem create_success_witness :
    create deps0 cdto0 { store := [], nextId := 0, trace := [] }
      = (Except.ok (createdRow cdto0 { store := [], nextId := 0, trace := [] }
          { id := "folder-1" } [("host", 7), ("port", 5432)]),
        { store := [] ++ [createdRow cdto0 { store := [], nextId := 0, trace := [] }
            { id := "folder-1" } [("host", 7), ("port", 5432)]]
          nextId := 0 + 1
          trace := [] ++ [StoreOp.createRow (createdRow cdto0
            { store := [], nextId := 0, trace := [] }
            { id := "folder-1" } [("host", 7), ("port", 5432)])] }) :=
  (create_success deps0 cdto0 { store := [], nextId := 0, trace := [] }
    { id := "folder-1" } okProvider [("host", 7), ("port", 5432)]
    rfl rfl rfl rfl rfl).1

/-- C1: `deleteBySlug` on a config with at least one outstanding lease
flips `isDeleting = true` through a store update, and only after that
update signals the pruning queue exactly once with that config's id (the
appended side-effect trace is the update followed by the single prune);
it returns the flagged config and removes no row: the store keeps its
length and still contains the flagged row. -/
theorem deleteBySlug_with_leases (deps : Deps) (dto : TDeleteDyanmicSecretDTO)
    (st : ServiceState) (folder : Folder) (cfg : DynamicSecretConfig)
    (hperm : deps.getProjectPermission dto.actor dto.actorId dto.projectId
      dto.actorAuthMethod dto.actorOrgId ProjectPermissionActions.edit
      { environment := dto.environment, secretPath := dto.path } = true)
    (hfold : deps.findBySecretPath dto.projectId dto.environment dto.path = some folder)
    (hcfg : dalFindOne st.store dto.slug folder.id = some cfg)
    (huniq : (st.store.map (fun c => c.id)).Nodup)
    (hlease : deps.leaseFind cfg.id ≠ []) :
    deleteBySlug deps dto st
      = (Except.ok (applyPatch cfg { isDeleting := some true }),
        { store := st.store.map (fun r =>
            if r.id = cfg.id then applyPatch r { isDeleting := some true } else r)
          nextId := st.nextId
          trace := st.trace ++ [StoreOp.updateRow cfg.id { isDeleting := some true },
            StoreOp.prune cfg.id] })
    ∧ (applyPatch cfg { isDeleting := some true }).isDeleting = true
    ∧ (applyPatch cfg { isDeleting := some true }).id = cfg.id
    ∧ applyPatch cfg { isDeleting := some true }
        ∈ st.store.map (fun r =>
            if r.id = cfg.id then applyPatch r { isDeleting := some true } else r)
    ∧ (st.store.map (fun r =>
        if r.id = cfg.id then applyPatch r { isDeleting := some true } else r)).length
      = st.store.length := by
  have hmem := (dalFindOne_mem hcfg).1
  have hlen : (deps.leaseFind cfg.id).length ≠ 0 := by
    intro h0
    exact hlease (List.length_eq_zero.mp h0)
  have hupd := dalUpdateById_eq ({ isDeleting := some true } : ConfigPatch) hmem huniq
  have hmain : deleteBySlug deps dto st
      = (Except.ok (applyPatch cfg { isDeleting := some true }),
        { store := st.store.map (fun r =>
            if r.id = cfg.id then applyPatch r { isDeleting := some true } else r)
          nextId := st.nextId
          trace := st.trace ++ [StoreOp.updateRow cfg.id { isDeleting := some true },
            StoreOp.prune cfg.id] }) := by
    simp only [deleteBySlug, hperm, hfold, hcfg]
    rw [if_pos hlen, hupd]
    simp [applyPatch]
  have hflag : (applyPatch cfg ({ isDeleting := some true } : ConfigPatch)).isDeleting
      = true := rfl
  have hid : (applyPatch cfg ({ isDeleting := some true } : ConfigPatch)).id = cfg.id := rfl
  have hmem2 : applyPatch cfg { isDeleting := some true }
      ∈ st.store.map (fun r =>
          if r.id = cfg.id then applyPatch r { isDeleting := some true } else r) :=
    List.mem_map.mpr ⟨cfg, hmem, by simp⟩
  exact ⟨hmain, hflag, hid, hmem2, by simp⟩

/-- C1 witness: deleting `db1` while its lease is outstanding flags it
and signals one prune, at the concrete fixture. -/
theorem deleteBySlug_with_leases_witness :
    deleteBySlug deps0 ddto0 st0
      = (Except.ok (applyPatch cfg0 { isDeleting := some true }),
        { store := st0.store.map (fun r =>
            if r.id = cfg0.id then applyPatch r { isDeleting := some true } else r)
          nextId := st0.nextId
          trace := st0.trace ++ [StoreOp.updateRow cfg0.id { isDeleting := some true },
            StoreOp.prune cfg0.id] }) :=
  (deleteBySlug_with_leases deps0 ddto0 st0 { id := "folder-1" } cfg0
    rfl rfl rfl (by decide) (by decide)).1

/-- C3: `deleteBySlug` on a config with zero outstanding leases removes
exactly that row synchronously (one delete store call, no prune signal)
and returns the deleted record; a subsequent `list` on the same folder
yields only configs with a different id. -/
theorem deleteBySlug_no_leases (deps : Deps) (dto : TDeleteDyanmicSecretDTO)
    (ldto : TListDyanmicSecretsDTO) (st : ServiceState)
    (folder folderL : Folder) (cfg : DynamicSecretConfig)
    (hperm : deps.getProjectPermission dto.actor dto.actorId dto.projectId
      dto.actorAuthMethod dto.actorOrgId ProjectPermissionActions.edit
      { environment := dto.environment, secretPath := dto.path } = true)
    (hfold : deps.findBySecretPath dto.projectId dto.environment dto.path = some folder)
    (hcfg : dalFindOne st.store dto.slug folder.id = some cfg)
    (huniq : (st.store.map (fun c => c.id)).Nodup)
    (hlease : deps.leaseFind cfg.id = [])
    (hpermL : deps.getProjectPermission ldto.actor ldto.actorId ldto.projectId
      ldto.actorAuthMethod ldto.actorOrgId ProjectPermissionActions.edit
      { environment := ldto.environment, secretPath := ldto.path } = true)
    (hfoldL : deps.findBySecretPath ldto.projectId ldto.environment ldto.path
      = some folderL) :
    deleteBySlug deps dto st
      = (Except.ok cfg,
        { store := st.store.filter (fun r => r.id ≠ cfg.id)
          nextId := st.nextId
          trace := st.trace ++ [StoreOp.deleteRow cfg.id] })
    ∧ (list deps ldto (deleteBySlug deps dto st).2).1
        = Except.ok (dalFind (st.store.filter (fun r => r.id ≠ cfg.id)) folderL.id)
    ∧ ∀ c ∈ dalFind (st.store.filter (fun r => r.id ≠ cfg.id)) folderL.id,
        c.id ≠ cfg.id := by
  have hmem := (dalFindOne_mem hcfg).1
  have hdel := dalDeleteById_eq hmem huniq
  have hmain : deleteBySlug deps dto st
      = (Except.ok cfg,
        { store := st.store.filter (fun r => r.id ≠ cfg.id)
          nextId := st.nextId
          trace := st.trace ++ [StoreOp.deleteRow cfg.id] }) := by
    simp only [deleteBySlug, hperm, hfold, hcfg, hlease]
    simpa using hdel
  refine ⟨hmain, ?_, ?_⟩
  · rw [hmain]
    simp [list, hpermL, hfoldL]
  · intro c hc
    simp only [dalFind, List.mem_filter] at hc
    have := hc.1.2
    simpa using this

/-- C3 witness: with no leases, deleting `db1` removes it and the
subsequent `list` of the folder contains no config with its id. -/
theorem deleteBySlug_no_leases_witness :
    deleteBySlug depsNoLease ddto0 st0
      = (Except.ok cfg0,
        { store := st0.store.filter (fun r => r.id ≠ cfg0.id)
          nextId := st0.nextId
          trace := st0.trace ++ [StoreOp.deleteRow cfg0.id] }) :=
  (deleteBySlug_no_leases depsNoLease ddto0 ldto0 st0 { id := "folder-1" }
    { id := "folder-1" } cfg0 rfl rfl rfl (by decide) rfl rfl rfl).1

/-- C2: `updateBySlug` decrypts the stored input, shallow-merges the
patch over it — every key resolves to the patch's value when the patch has
it and to the stored value otherwise, so unspecified stored fields are
preserved — re-validates the merged object through the provider selected
by the stored config's own type, and persists the re-encrypted validated
result in the update it issues. -/
theorem updateBySlug_merge (deps : Deps) (dto : TUpdateDynamicSecretDTO)
    (st : ServiceState) (folder : Folder) (cfg : DynamicSecretConfig)
    (prov : Provider) (patch validated : Obj)
    (hperm : deps.getProjectPermission dto.actor dto.actorId dto.projectId
      dto.actorAuthMethod dto.actorOrgId ProjectPermissionActions.edit
      { environment := dto.environment, secretPath := dto.path } = true)
    (hfold : deps.findBySecretPath dto.projectId dto.environment dto.path = some folder)
    (hcfg : dalFindOne st.store dto.slug folder.id = some cfg)
    (huniq : (st.store.map (fun c => c.id)).Nodup)
    (hns : dto.newSlug = none)
    (hpatch : dto.inputs = some patch)
    (hprov : deps.dynamicSecretProviders cfg.type = some prov)
    (hval : prov.validateProviderInputs
      (spreadMerge (infisicalSymmetricDecrypt cfg.inputCiphertext) patch)
      = Except.ok validated) :
    (∀ k, Obj.lookup (spreadMerge (infisicalSymmetricDecrypt cfg.inputCiphertext) patch) k
        = (Obj.lookup patch k).or
            (Obj.lookup (infisicalSymmetricDecrypt cfg.inputCiphertext) k))
    ∧ updateBySlug deps dto st
        = (Except.ok (applyPatch cfg (updatePatch dto validated)),
          { store := st.store.map (fun r =>
              if r.id = cfg.id then applyPatch r (updatePatch dto validated) else r)
            nextId := st.nextId
            trace := st.trace ++ [StoreOp.updateRow cfg.id (updatePatch dto validated)] })
    ∧ (applyPatch cfg (updatePatch dto validated)).inputCiphertext
        = (infisicalSymmetricEncypt validated).ciphertext := by
  have hmem := (dalFindOne_mem hcfg).1
  have hupd := dalUpdateById_eq (updatePatch dto validated) hmem huniq
  have hmain : updateBySlug deps dto st
      = (Except.ok (applyPatch cfg (updatePatch dto validated)),
        { store := st.store.map (fun r =>
            if r.id = cfg.id then applyPatch r (updatePatch dto validated) else r)
          nextId := st.nextId
          trace := st.trace ++ [StoreOp.updateRow cfg.id (updatePatch dto validated)] }) := by
    simp only [updateBySlug, hperm, hfold, hcfg, hns, hpatch, Option.getD_some, hprov, hval]
    simpa [updatePatch, hns] using hupd
  exact ⟨fun k => spreadMerge_lookup _ _ k, hmain, rfl⟩

/-- C2 witness: with stored input `{a:1, b:2}` and patch `{b:3}`, the
merged, validated and re-encrypted input `{a:1, b:3}` is persisted and
returned. -/
theorem updateBySlug_merge_witness :
    updateBySlug deps0 udto0 st0
      = (Except.ok (applyPatch cfg0 (updatePatch udto0 [("a", 1), ("b", 3)])),
        { store := st0.store.map (fun r =>
            if r.id = cfg0.id then applyPatch r (updatePatch udto0 [("a", 1), ("b", 3)])
            else r)
          nextId := st0.nextId
          trace := st0.trace
            ++ [StoreOp.updateRow cfg0.id (updatePatch udto0 [("a", 1), ("b", 3)])] }) :=
  (updateBySlug_merge deps0 udto0 st0 { id := "folder-1" } cfg0 okProvider
    [("b", 3)] [("a", 1), ("b", 3)] rfl rfl rfl (by decide) rfl rfl rfl rfl).2.1

/-- C10: the update `updateBySlug` issues writes only the five
encrypted-payload fields, `maxTTL`, `defaultTTL` and `slug` (its patch
leaves `isDeleting` unset), so the updated config keeps its `id`,
`folderId`, provider `type`, `version` and `isDeleting`, and every row of
the resulting store keeps the `id`, `folderId`, `type` and `version` of a
row of the original store. -/
theorem updateBySlug_frame (deps : Deps) (dto : TUpdateDynamicSecretDTO)
    (st : ServiceState) (folder : Folder) (cfg : DynamicSecretConfig)
    (prov : Provider) (validated : Obj)
    (hperm : deps.getProjectPermission dto.actor dto.actorId dto.projectId
      dto.actorAuthMethod dto.actorOrgId ProjectPermissionActions.edit
      { environment := dto.environment, secretPath := dto.path } = true)
    (hfold : deps.findBySecretPath dto.projectId dto.environment dto.path = some folder)
    (hcfg : dalFindOne st.store dto.slug folder.id = some cfg)
    (huniq : (st.store.map (fun c => c.id)).Nodup)
    (hcol : ∀ ns, dto.newSlug = some ns → dalFindOne st.store ns folder.id = none)
    (hprov : deps.dynamicSecretProviders cfg.type = some prov)
    (hval : prov.validateProviderInputs
      (spreadMerge (infisicalSymmetricDecrypt cfg.inputCiphertext) (dto.inputs.getD []))
      = Except.ok validated) :
    updateBySlug deps dto st
      = (Except.ok (applyPatch cfg (updatePatch dto validated)),
        { store := st.store.map (fun r =>
            if r.id = cfg.id then applyPatch r (updatePatch dto validated) else r)
          nextId := st.nextId
          trace := st.trace ++ [StoreOp.updateRow cfg.id (updatePatch dto validated)] })
    ∧ (applyPatch cfg (updatePatch dto validated)).id = cfg.id
    ∧ (applyPatch cfg (updatePatch dto validated)).folderId = cfg.folderId
    ∧ (applyPatch cfg (updatePatch dto validated)).type = cfg.type
    ∧ (applyPatch cfg (updatePatch dto validated)).version = cfg.version
    ∧ (applyPatch cfg (updatePatch dto validated)).isDeleting = cfg.isDeleting
    ∧ (updatePatch dto validated).isDeleting = none
    ∧ ∀ r' ∈ st.store.map (fun r =>
        if r.id = cfg.id then applyPatch r (updatePatch dto validated) else r),
        ∃ r ∈ st.store, r'.id = r.id ∧ r'.folderId = r.folderId
          ∧ r'.type = r.type ∧ r'.version = r.version := by
  have hmem := (dalFindOne_mem hcfg).1
  have hupd := dalUpdateById_eq (updatePatch dto validated) hmem huniq
  have hmain : updateBySlug deps dto st
      = (Except.ok (applyPatch cfg (updatePatch dto validated)),
        { store := st.store.map (fun r =>
            if r.id = cfg.id then applyPatch r (updatePatch dto validated) else r)
          nextId := st.nextId
          trace := st.trace ++ [StoreOp.updateRow cfg.id (updatePatch dto validated)] }) := by
    cases hns : dto.newSlug with
    | none =>
      simp only [updateBySlug, hperm, hfold, hcfg, hns, hprov, hval]
      simpa [updatePatch, hns] using hupd
    | some ns =>
      simp only [updateBySlug, hperm, hfold, hcfg, hns, hcol ns hns, hprov, hval]
      simpa [updatePatch, hns] using hupd
  have hframe : ∀ r' ∈ st.store.map (fun r =>
      if r.id = cfg.id then applyPatch r (updatePatch dto validated) else r),
      ∃ r ∈ st.store, r'.id = r.id ∧ r'.folderId = r.folderId
        ∧ r'.type = r.type ∧ r'.version = r.version := by
    intro r' hr'
    obtain ⟨r, hr, hr'eq⟩ := List.mem_map.mp hr'
    by_cases h : r.id = cfg.id
    · refine ⟨r, hr, ?_⟩
      rw [← hr'eq]
      simp [h, applyPatch, updatePatch]
    · refine ⟨r, hr, ?_⟩
      rw [← hr'eq]
      simp [h]
  exact ⟨hmain, rfl, rfl, rfl, rfl, rfl, rfl, hframe⟩

/-- C10 witness: renaming `db1` to the free slug `db2` with patch `{b:3}`
leaves `id`, `folderId`, `type` and `version` of the stored row unchanged
at the concrete fixture. -/
theorem updateBySlug_frame_witness :
    updateBySlug deps0 { udto0 with newSlug := some "db2" } st0
      = (Except.ok (applyPatch cfg0
          (updatePatch { udto0 with newSlug := some "db2" } [("a", 1), ("b", 3)])),
        { store := st0.store.map (fun r =>
            if r.id = cfg0.id then applyPatch r
              (updatePatch { udto0 with newSlug := some "db2" } [("a", 1), ("b", 3)])
            else r)
          nextId := st0.nextId
          trace := st0.trace ++ [StoreOp.updateRow cfg0.id
            (updatePatch { udto0 with newSlug := some "db2" } [("a", 1), ("b", 3)])] }) :=
  (updateBySlug_frame deps0 { udto0 with newSlug := some "db2" } st0 { id := "folder-1" }
    cfg0 okProvider [("a", 1), ("b", 3)] rfl rfl rfl (by decide)
    (fun ns h => by cases h; rfl) rfl rfl).1

end DynSecret
